import Mathlib

/-
Verification of the touchlog tool (a C command-line program that creates a
dated journal/log file) against its specification.

The development is a shallow embedding of the program:
* the string constants come from the header (,touchlog.h);
* `write_logfile`, `handle_custom`, `handle_today` and the `main` option
  loop are translated from ,touchlog.c;
* interaction with the operating system (realpath, fopen, fprintf, the
  errno variable, the current date) is abstracted into an `Env` record of
  oracles, so that every run of the program is a pure function of its
  arguments and the environment;
* the file system is a list of (path, content) pairs, and the effect of a run
  on it is the overwrite performed by fopen with mode "w+" followed by
  the fprintf of the template.
-/

namespace Touchlog

/-- Version string from the header included by the implementation file. -/
def VERSION : String := "0.0.2-alpha"

/-- Author string from the header. -/
def AUTHOR : String := "Sasank \x27squatch$\x27 Vishnubhatla"

/-- Release-date string from the header. -/
def RELEASE_DATE : String := "Tuesday, July 18, 2023"

/-- Help text from the header (macro HELP). -/
def HELP : String := "touchlog\nA tool to make a logfile for a date\n\nOptions:\n\t-h\t\tDisplay this help message\n\t-d [mmddyyyy]\tMake a logfile for a specific date\n\t-v\t\tDisplay version information\n\t[noop]\t\tMake a logfile for the current date\n\nPlease report any bugs to Sasank Vishnubhatla at sasank@vishnubhatlas.net"

/-- Template body written by fprintf(nf, LOG_FMT, month, day, year): the
macro LOG_FMT with its three %s conversions filled in, in the order the
arguments are passed (month, day, year). -/
def LOG_FMT_filled (month day year : String) : String :=
  "> month: " ++ month ++ "\n> day: " ++ day ++ "\n> year: " ++ year ++
  "\n\n|> events\n\n|> food\n\n|> emotions\n\n|> things to remember\n"

/-- Oracles for the operating-system facilities the program calls.
`realpath` models realpath(3) on the -f argument (none when resolution
fails); `openOk` tells whether fopen(path, "w+") succeeds; `writeOk`
tells whether the fprintf of the template reports a nonzero count;
`errno` is the value the C errno variable holds when main reads it at
exit; the three today strings are what strftime produces for %d, %m, %Y. -/
structure Env where
  realpath : String → Option String
  openOk : String → Bool
  writeOk : String → Bool
  errno : Nat
  todayDay : String
  todayMonth : String
  todayYear : String

/-- Result of one of the handler functions: the C int status code, the
file the call wrote (target path and final content), if any, and the
lines printed to standard output. -/
structure WResult where
  status : Nat
  file : Option (String × String)
  stdout : List String
deriving DecidableEq

/-- Filename built by sprintf(fname, "%s.%s.%s.log", month, day, year). -/
def mkFname (month day year : String) : String :=
  month ++ "." ++ day ++ "." ++ year ++ ".log"

/-- Target path built in write_logfile: `path/fname` when a directory was
supplied, the bare filename (current directory) otherwise. -/
def targetPath (month day year : String) (path : Option String) : String :=
  match path with
  | some p => p ++ "/" ++ mkFname month day year
  | none => mkFname month day year

/-- Translation of write_logfile(day, month, year, path) from ,touchlog.c.
sprintf returns the number of characters produced, so fname_ret is the
length of the filename; the `if fname_ret = 0` early return mirrors the
`if (!fname_ret)` check. fopen(_path, "w+") truncates or creates the
file, so when the open succeeds but fprintf reports zero bytes written
(the `if (!logwrite_ret)` branch) the function returns logwrite_ret,
which is 0, and leaves the file empty; when fprintf succeeds the file
holds the filled template and the confirmation line is printed. When the
open fails the function returns 134 (the source comments it as SIGABRT). -/
def write_logfile (env : Env) (day month year : String) (path : Option String) : WResult :=
  let fname := mkFname month day year
  let fname_ret := fname.length
  if fname_ret = 0 then
    ⟨0, none, []⟩
  else
    let p := targetPath month day year path
    if env.openOk p = false then
      ⟨134, none, []⟩
    else if env.writeOk p = false then
      ⟨0, some (p, ""), []⟩
    else
      ⟨0, some (p, LOG_FMT_filled month day year),
        ["Wrote new logfile for today\x27s date to " ++ p]⟩

/-- Value regexec returns when the pattern does not match (glibc value of
REG_NOMATCH). -/
def REG_NOMATCH : Nat := 1

/-- Truth of "the first 8 characters of this suffix exist and are all
digits", i.e. the ERE ([0-9]{2})([0-9]{2})([0-9]{4}) matches at the head
of the suffix (the three groups together are exactly 8 consecutive
digits). -/
def digitRun8At (l : List Char) : Bool :=
  (l.take 8).length == 8 && (l.take 8).all Char.isDigit

/-- Offset of the leftmost match of the (unanchored) pattern
([0-9]{2})([0-9]{2})([0-9]{4}) in the input, as regexec finds it; none
when regexec reports REG_NOMATCH. -/
def matchPos : List Char → Option Nat
  | [] => none
  | c :: rest =>
    if digitRun8At (c :: rest) then some 0
    else (matchPos rest).map (· + 1)

/-- Truth of "regexec returns 0 on this input" for CUSTOM_REGEX_FMT. -/
def regexMatch (l : List Char) : Bool :=
  (matchPos l).isSome

/-- Model of strncpy(dst, raw + start, len) followed by explicit
NUL-termination of dst: the substring of len characters starting at
byte offset start. -/
def sliceStr (s : String) (start len : Nat) : String :=
  ((s.data.drop start).take len).asString

/-- Translation of handle_custom(raw, path) from ,touchlog.c. When
regexec fails, the error line is printed and its nonzero status s is
returned; no file is touched. On success all CUSTOM_REGEX_FMT_GROUPS
slots of the groups array are filled, so the rm_so sentinel loop never
fires; the code then slices raw positionally with strncpy — month from
characters 0-1, day from 2-3, year from 4-7 — ignoring the match
offsets, and calls write_logfile(day, month, year, path). -/
def handle_custom (env : Env) (raw : String) (path : Option String) : WResult :=
  if regexMatch raw.data = false then
    ⟨REG_NOMATCH, none, ["Error: input is not in the format mmddyyyy"]⟩
  else
    write_logfile env (sliceStr raw 2 2) (sliceStr raw 0 2) (sliceStr raw 4 4) path

/-- Translation of handle_today(path) from ,touchlog.c. strftime returns
the number of characters placed in the buffer, so the
`if (!(day_ret && month_ret && year_ret))` check fails exactly when one
of the formatted components is empty. -/
def handle_today (env : Env) (path : Option String) : WResult :=
  if env.todayDay.length == 0 || env.todayMonth.length == 0
      || env.todayYear.length == 0 then
    ⟨1, none, []⟩
  else
    write_logfile env env.todayDay env.todayMonth env.todayYear path

/-- One option occurrence as getopt(argc, argv, "hvd:f:") yields it, in
command-line order: h, v, d with its argument, f with its argument, or
the character getopt returns for an unknown option or a missing
required argument (the case labelled ? in the switch). -/
inductive Opt where
  | h
  | v
  | d (arg : String)
  | f (arg : String)
  | err
deriving DecidableEq

/-- Local state of main across the option loop: temp_buf, path (once
resolved), is_custom and is_path_specified. -/
structure MainState where
  temp_buf : Option String
  path : Option String
  is_custom : Bool
  is_path_specified : Bool
deriving DecidableEq

/-- Initial state of main: temp_buf = NULL, no path, both flags false. -/
def initState : MainState :=
  ⟨none, none, false, false⟩

/-- Outcome of the option loop: either a `return` executed inside the
switch (with the process exit code and everything printed so far), or
the loop ran off the end of the options with the final state. -/
inductive LoopOut where
  | exited (code : Nat) (stdout : List String)
  | done (st : MainState) (stdout : List String)
deriving DecidableEq

/-- Lines printed by the -v case of the switch. -/
def versionLines : List String :=
  ["touchlog", "Version: " ++ VERSION, "Author : " ++ AUTHOR,
   "Release date: " ++ RELEASE_DATE]

/-- Translation of the while/switch of main over getopt from ,touchlog.c.
-h prints HELP and returns 0; -v prints the version block and returns 0;
-d copies optarg into temp_buf and sets is_custom; -f first prints the
announcement line, then calls realpath — on success it records the
resolved path, on failure it prints the error line and returns 1; the
? case prints "Missing argument" and returns 0. -/
def optLoop (env : Env) : List Opt → MainState → List String → LoopOut
  | [], st, out => LoopOut.done st out
  | Opt.h :: _, _, out => LoopOut.exited 0 (out ++ [HELP])
  | Opt.v :: _, _, out => LoopOut.exited 0 (out ++ versionLines)
  | Opt.d arg :: rest, st, out =>
    optLoop env rest { st with temp_buf := some arg, is_custom := true } out
  | Opt.f arg :: rest, st, out =>
    match env.realpath arg with
    | some p =>
      optLoop env rest { st with path := some p, is_path_specified := true }
        (out ++ ["Will write log file to " ++ arg])
    | none =>
      LoopOut.exited 1
        (out ++ ["Will write log file to " ++ arg,
                 "error: " ++ arg ++ " is not a valid existing path"])
  | Opt.err :: _, _, out => LoopOut.exited 0 (out ++ ["Missing argument"])

/-- Observable outcome of a whole process run: the exit status, standard
output, and the file written (path and final content), if any. -/
structure RunResult where
  exitCode : Nat
  stdout : List String
  file : Option (String × String)
deriving DecidableEq

/-- Translation of main from ,touchlog.c after the option loop: dispatch
on is_custom/is_path_specified to handle_custom or handle_today, then
`if (ret != 0) exit(errno);` — so the process exit status is 0 when the
handler returned 0 and the current errno value otherwise. -/
def main_run (env : Env) (opts : List Opt) : RunResult :=
  match optLoop env opts initState [] with
  | LoopOut.exited code out => ⟨code, out, none⟩
  | LoopOut.done st out =>
    let r :=
      if st.is_custom then
        handle_custom env (st.temp_buf.getD "")
          (if st.is_path_specified then st.path else none)
      else
        handle_today env (if st.is_path_specified then st.path else none)
    ⟨if r.status = 0 then 0 else env.errno, out ++ r.stdout, r.file⟩

/-- File system as an association list from paths to contents. `setFS`
is the effect of fopen(path, "w+") followed by writing `c`: the previous
content of the file is discarded (truncation) and replaced. -/
def setFS : List (String × String) → String → String → List (String × String)
  | [], p, c => [(p, c)]
  | (q, d) :: fs, p, c =>
    if q = p then (p, c) :: fs else (q, d) :: setFS fs p c

/-- Effect of the write performed by a run (if any) on the file system. -/
def applyFile : Option (String × String) → List (String × String) → List (String × String)
  | none, fs => fs
  | some (p, c), fs => setFS fs p c

/-- File system after one invocation of the tool. -/
def runFS (env : Env) (opts : List Opt) (fs : List (String × String)) :
    List (String × String) :=
  applyFile (main_run env opts).file fs

/-- Truth of "this option does not make the loop return": a -d, or a -f
whose argument realpath can resolve. -/
def benignOpt (env : Env) : Opt → Prop
  | Opt.d _ => True
  | Opt.f a => ∃ p, env.realpath a = some p
  | _ => False

lemma mkFname_length_ne (m d y : String) : (mkFname m d y).length ≠ 0 := by
  have h4 : ".log".length = 4 := rfl
  simp [mkFname, String.length_append, h4]

lemma write_logfile_eq_success (env : Env) (day month year : String)
    (path : Option String)
    (ho : env.openOk (targetPath month day year path) = true)
    (hw : env.writeOk (targetPath month day year path) = true) :
    write_logfile env day month year path =
      ⟨0, some (targetPath month day year path, LOG_FMT_filled month day year),
        ["Wrote new logfile for today\x27s date to " ++
          targetPath month day year path]⟩ := by
  have hn := mkFname_length_ne month day year
  simp [write_logfile, hn, ho, hw]

lemma write_logfile_eq_noopen (env : Env) (day month year : String)
    (path : Option String)
    (ho : env.openOk (targetPath month day year path) = false) :
    write_logfile env day month year path = ⟨134, none, []⟩ := by
  have hn := mkFname_length_ne month day year
  simp [write_logfile, hn, ho]

lemma matchPos_eq_zero_of_digits (l : List Char) (h8 : l.length = 8)
    (hd : l.all Char.isDigit = true) : matchPos l = some 0 := by
  cases l with
  | nil => simp at h8
  | cons c rest =>
    have ht : (c :: rest).take 8 = c :: rest :=
      List.take_of_length_le (le_of_eq h8)
    have hrun : digitRun8At (c :: rest) = true := by
      simp [digitRun8At, ht, h8, hd]
    simp [matchPos, hrun]

lemma regexMatch_of_digits (l : List Char) (h8 : l.length = 8)
    (hd : l.all Char.isDigit = true) : regexMatch l = true := by
  simp [regexMatch, matchPos_eq_zero_of_digits l h8 hd]

lemma handle_custom_eq_write (env : Env) (raw : String) (path : Option String)
    (k : Nat) (hm : matchPos raw.data = some k) :
    handle_custom env raw path =
      write_logfile env (sliceStr raw 2 2) (sliceStr raw 0 2) (sliceStr raw 4 4)
        path := by
  simp [handle_custom, regexMatch, hm]

lemma handle_custom_eq_err (env : Env) (raw : String) (path : Option String)
    (hm : regexMatch raw.data = false) :
    handle_custom env raw path =
      ⟨REG_NOMATCH, none, ["Error: input is not in the format mmddyyyy"]⟩ := by
  simp [handle_custom, hm]

lemma main_run_d (env : Env) (raw : String) :
    main_run env [Opt.d raw] =
      ⟨if (handle_custom env raw none).status = 0 then 0 else env.errno,
       (handle_custom env raw none).stdout,
       (handle_custom env raw none).file⟩ := rfl

lemma setFS_idem (fs : List (String × String)) (p c : String) :
    setFS (setFS fs p c) p c = setFS fs p c := by
  induction fs with
  | nil => simp [setFS]
  | cons hd tl ih =>
    obtain ⟨q, d⟩ := hd
    by_cases hq : q = p
    · subst hq; simp [setFS]
    · simp [setFS, hq, ih]

lemma optLoop_exits_of_badf (env : Env) (dir : String)
    (hfail : env.realpath dir = none) :
    ∀ (opts : List Opt) (st : MainState) (out : List String),
      Opt.f dir ∈ opts → ∃ c o, optLoop env opts st out = LoopOut.exited c o := by
  intro opts
  induction opts with
  | nil => intro st out hmem; simp at hmem
  | cons o rest ih =>
    intro st out hmem
    cases o with
    | h => exact ⟨0, _, rfl⟩
    | v => exact ⟨0, _, rfl⟩
    | err => exact ⟨0, _, rfl⟩
    | d a =>
      have hmem' : Opt.f dir ∈ rest := by
        rcases List.mem_cons.mp hmem with h1 | h1
        · exact absurd h1 (by simp)
        · exact h1
      have hrec := ih { st with temp_buf := some a, is_custom := true } out hmem'
      simpa [optLoop] using hrec
    | f a =>
      cases hra : env.realpath a with
      | none =>
        exact ⟨1, out ++ ["Will write log file to " ++ a,
          "error: " ++ a ++ " is not a valid existing path"],
          by simp [optLoop, hra]⟩
      | some p =>
        have hmem' : Opt.f dir ∈ rest := by
          rcases List.mem_cons.mp hmem with h1 | h1
          · injection h1 with h2
            rw [← h2, hfail] at hra
            cases hra
          · exact h1
        have hrec := ih { st with path := some p, is_path_specified := true }
          (out ++ ["Will write log file to " ++ a]) hmem'
        simpa [optLoop, hra] using hrec

lemma optLoop_benign_append (env : Env) :
    ∀ (pre : List Opt), (∀ o ∈ pre, benignOpt env o) →
      ∀ (l : List Opt) (st : MainState) (out : List String),
        ∃ st2 out2,
          optLoop env (pre ++ l) st out = optLoop env l st2 (out ++ out2) := by
  intro pre
  induction pre with
  | nil =>
    intro _ l st out
    exact ⟨st, [], by simp⟩
  | cons o pre' ih =>
    intro hben l st out
    have hbo : benignOpt env o := hben o (List.mem_cons_self o pre')
    have hben' : ∀ o2 ∈ pre', benignOpt env o2 :=
      fun o2 h2 => hben o2 (List.mem_cons_of_mem o h2)
    cases o with
    | h => exact absurd hbo (by simp [benignOpt])
    | v => exact absurd hbo (by simp [benignOpt])
    | err => exact absurd hbo (by simp [benignOpt])
    | d a =>
      obtain ⟨st2, out2, he⟩ :=
        ih hben' l { st with temp_buf := some a, is_custom := true } out
      exact ⟨st2, out2, by simpa [optLoop] using he⟩
    | f a =>
      obtain ⟨p, hp⟩ := hbo
      obtain ⟨st2, out2, he⟩ :=
        ih hben' l { st with path := some p, is_path_specified := true }
          (out ++ ["Will write log file to " ++ a])
      refine ⟨st2, ["Will write log file to " ++ a] ++ out2, ?_⟩
      simpa [optLoop, hp, List.append_assoc] using he

/-- Environment in which every system call succeeds and errno is 0. -/
def envOK : Env :=
  ⟨fun s => some s, fun _ => true, fun _ => true, 0, "11", "10", "2026"⟩

/-- Environment in which fopen fails on every path, with errno 2 (the
usual ENOENT left by the failed open). -/
def envNoOpen : Env :=
  ⟨fun s => some s, fun _ => false, fun _ => true, 2, "11", "10", "2026"⟩

/-- Environment in which fopen succeeds but fprintf reports zero bytes
written on every path. -/
def envNoWrite : Env :=
  ⟨fun s => some s, fun _ => true, fun _ => false, 5, "11", "10", "2026"⟩

/-- Environment in which realpath fails on every directory argument. -/
def envNoPath : Env :=
  ⟨fun _ => none, fun _ => true, fun _ => true, 0, "11", "10", "2026"⟩

/-- C1: for every custom-date input of exactly 8 digits MMDDYYYY, when
the file system lets the write go through, handle_custom succeeds and
produces the file MM.DD.YYYY.log whose body carries exactly those
month, day and year components in the template. -/
theorem c1_custom_eight_digits_writes_file (env : Env) (raw : String)
    (h8 : raw.data.length = 8) (hd : raw.data.all Char.isDigit = true)
    (ho : env.openOk
      (mkFname (sliceStr raw 0 2) (sliceStr raw 2 2) (sliceStr raw 4 4)) = true)
    (hw : env.writeOk
      (mkFname (sliceStr raw 0 2) (sliceStr raw 2 2) (sliceStr raw 4 4)) = true) :
    (handle_custom env raw none).status = 0 ∧
    (handle_custom env raw none).file =
      some (sliceStr raw 0 2 ++ "." ++ sliceStr raw 2 2 ++ "." ++
          sliceStr raw 4 4 ++ ".log",
        "> month: " ++ sliceStr raw 0 2 ++ "\n> day: " ++ sliceStr raw 2 2 ++
          "\n> year: " ++ sliceStr raw 4 4 ++
          "\n\n|> events\n\n|> food\n\n|> emotions\n\n|> things to remember\n") := by
  have hm := matchPos_eq_zero_of_digits raw.data h8 hd
  rw [handle_custom_eq_write env raw none 0 hm,
    write_logfile_eq_success env _ _ _ none ho hw]
  exact ⟨rfl, rfl⟩

/-- Witness for C1 at the concrete scenario of the claim: input 07042025
yields file 07.04.2025.log with the expected body. -/
theorem c1_witness :
    (handle_custom envOK "07042025" none).status = 0 ∧
    (handle_custom envOK "07042025" none).file =
      some ("07.04.2025.log",
        "> month: 07\n> day: 04\n> year: 2025\n\n|> events\n\n|> food\n\n|> emotions\n\n|> things to remember\n") := by
  have h := c1_custom_eight_digits_writes_file envOK "07042025"
    (by decide) (by decide) rfl rfl
  refine ⟨h.1, ?_⟩
  rw [h.2]
  decide

/-- Counterexample to C2: the 9-digit input 070420251 is not exactly 8
digits, yet the unanchored pattern matches its first 8 characters, so no
error is reported and the file 07.04.2025.log is created. -/
theorem c2_cex_nine_digit_input_accepted :
    (handle_custom envOK "070420251" none).status = 0 ∧
    (handle_custom envOK "070420251" none).file =
      some ("07.04.2025.log", LOG_FMT_filled "07" "04" "2025") ∧
    (handle_custom envOK "070420251" none).stdout =
      ["Wrote new logfile for today\x27s date to 07.04.2025.log"] := by
  decide

/-- C2 amended: the pattern is unanchored, so validation fails exactly
when the input contains no run of 8 consecutive digits; every such input
is rejected with the fixed error line, a nonzero status, and no file. -/
theorem c2_amended_no_digit_run_rejected (env : Env) (raw : String)
    (path : Option String) (hm : regexMatch raw.data = false) :
    (handle_custom env raw path).status = REG_NOMATCH ∧ REG_NOMATCH ≠ 0 ∧
    (handle_custom env raw path).file = none ∧
    (handle_custom env raw path).stdout =
      ["Error: input is not in the format mmddyyyy"] := by
  rw [handle_custom_eq_err env raw path hm]
  exact ⟨rfl, by decide, rfl, rfl⟩

/-- Witness for the amended C2 at the too-short input 0704. -/
theorem c2_amended_witness :
    (handle_custom envOK "0704" none).status = REG_NOMATCH ∧ REG_NOMATCH ≠ 0 ∧
    (handle_custom envOK "0704" none).file = none ∧
    (handle_custom envOK "0704" none).stdout =
      ["Error: input is not in the format mmddyyyy"] :=
  c2_amended_no_digit_run_rejected envOK "0704" none (by decide)

/-- Counterexample to C3: with every fopen failing and errno 2, the
process exit code is 2, not the abort code 134. -/
theorem c3_cex_exit_is_errno_not_134 :
    (main_run envNoOpen [Opt.d "07042025"]).exitCode = 2 ∧
    ¬ (main_run envNoOpen [Opt.d "07042025"]).exitCode = 134 := by
  decide

/-- C3 amended: when the target file cannot be opened, write_logfile
returns the internal status 134, but main then executes exit(errno), so
the process terminates with the current errno value, not with 134. -/
theorem c3_amended_internal_134_exit_errno (env : Env) (raw : String)
    (k : Nat) (hm : matchPos raw.data = some k)
    (hopen : ∀ p, env.openOk p = false) :
    (handle_custom env raw none).status = 134 ∧
    (main_run env [Opt.d raw]).exitCode = env.errno ∧
    (main_run env [Opt.d raw]).file = none := by
  have h1 : handle_custom env raw none = ⟨134, none, []⟩ := by
    rw [handle_custom_eq_write env raw none k hm]
    exact write_logfile_eq_noopen env _ _ _ none (hopen _)
  refine ⟨by rw [h1], ?_, ?_⟩
  · rw [main_run_d, h1]
    simp
  · rw [main_run_d, h1]

/-- Witness for the amended C3: with fopen failing and errno 2, the
handler status is 134 and the process exits 2. -/
theorem c3_amended_witness :
    (handle_custom envNoOpen "07042025" none).status = 134 ∧
    (main_run envNoOpen [Opt.d "07042025"]).exitCode = 2 := by
  have h := c3_amended_internal_134_exit_errno envNoOpen "07042025" 0
    (by decide) (fun _ => rfl)
  exact ⟨h.1, by rw [h.2.1]; rfl⟩

/-- Counterexample to C4: a failed validation is reported, but with
errno 0 the process exits 0, not with the nonzero status the failed
pattern match produced. -/
theorem c4_cex_validation_failure_exits_zero :
    (main_run envOK [Opt.d "xyz"]).stdout =
      ["Error: input is not in the format mmddyyyy"] ∧
    (main_run envOK [Opt.d "xyz"]).exitCode = 0 := by
  decide

/-- C4 amended: on a validation failure the error line is printed and
handle_custom returns the nonzero regexec status, but main executes
exit(errno), so the process exit code is the current errno value (which
can be 0), not the validation status. -/
theorem c4_amended_reported_but_exit_errno (env : Env) (raw : String)
    (hm : regexMatch raw.data = false) :
    (handle_custom env raw none).status = REG_NOMATCH ∧ REG_NOMATCH ≠ 0 ∧
    (main_run env [Opt.d raw]).stdout =
      ["Error: input is not in the format mmddyyyy"] ∧
    (main_run env [Opt.d raw]).exitCode = env.errno := by
  have h1 := handle_custom_eq_err env raw none hm
  refine ⟨by rw [h1], by decide, ?_, ?_⟩
  · rw [main_run_d, h1]
  · rw [main_run_d, h1]
    simp [REG_NOMATCH]

/-- Witness for the amended C4 at input xyz with errno 2. -/
theorem c4_amended_witness :
    (handle_custom envNoOpen "xyz" none).status = REG_NOMATCH ∧
    (main_run envNoOpen [Opt.d "xyz"]).exitCode = 2 := by
  have h := c4_amended_reported_but_exit_errno envNoOpen "xyz" (by decide)
  exact ⟨h.1, by rw [h.2.2.2]; rfl⟩

/-- C5 (code evaluated at the failing input): when fprintf reports zero
bytes written, write_logfile returns logwrite_ret, which is 0 — the very
success status — while leaving the truncated, empty file behind and
printing nothing. -/
theorem c5_zero_write_returns_success_status :
    (write_logfile envNoWrite "04" "07" "2025" none).status = 0 ∧
    (write_logfile envNoWrite "04" "07" "2025" none).file =
      some ("07.04.2025.log", "") ∧
    (write_logfile envNoWrite "04" "07" "2025" none).stdout = [] := by
  decide

/-- C6: when the -f directory cannot be resolved, the loop prints the
error line and returns 1 at that option, and no run whose options
contain such a -f ever writes a file. -/
theorem c6_bad_directory_aborts_without_file (env : Env) (dir : String)
    (hfail : env.realpath dir = none) :
    (∀ (rest : List Opt) (st : MainState) (out : List String),
      optLoop env (Opt.f dir :: rest) st out =
        LoopOut.exited 1 (out ++ ["Will write log file to " ++ dir,
          "error: " ++ dir ++ " is not a valid existing path"])) ∧
    (∀ opts : List Opt, Opt.f dir ∈ opts → (main_run env opts).file = none) := by
  constructor
  · intro rest st out
    simp [optLoop, hfail]
  · intro opts hmem
    obtain ⟨c, o, he⟩ := optLoop_exits_of_badf env dir hfail opts initState [] hmem
    simp [main_run, he]

/-- Witness for C6 at the unresolvable directory nope. -/
theorem c6_witness :
    optLoop envNoPath [Opt.f "nope"] initState [] =
      LoopOut.exited 1 ["Will write log file to nope",
        "error: nope is not a valid existing path"] ∧
    (main_run envNoPath [Opt.f "nope"]).file = none := by
  have h := c6_bad_directory_aborts_without_file envNoPath "nope" rfl
  refine ⟨?_, h.2 [Opt.f "nope"] (List.mem_singleton.mpr rfl)⟩
  have h1 := h.1 [] initState []
  rw [h1]
  decide

/-- C7: whenever the pattern matches — at whatever offset k regexec
found the match — handle_custom hands write_logfile the positional
slices of the raw input: month from characters 0-1, day from 2-3, year
from 4-7, independent of the match offset. -/
theorem c7_positional_slicing (env : Env) (raw : String) (path : Option String)
    (k : Nat) (hm : matchPos raw.data = some k) :
    handle_custom env raw path =
      write_logfile env (sliceStr raw 2 2) (sliceStr raw 0 2)
        (sliceStr raw 4 4) path :=
  handle_custom_eq_write env raw path k hm

/-- Witness for C7 at input ab07042025, where the match sits at offset 2
yet the slices still come from positions 0-1, 2-3, 4-7. -/
theorem c7_witness :
    matchPos "ab07042025".data = some 2 ∧
    handle_custom envOK "ab07042025" none =
      write_logfile envOK "07" "ab" "0420" none := by
  refine ⟨by decide, ?_⟩
  rw [c7_positional_slicing envOK "ab07042025" none 2 (by decide)]
  decide

/-- C8: running the tool twice with the same options and environment
leaves the file system exactly as one run does — fopen with mode w+
truncates and overwrites, so the second run replaces rather than
appends. -/
theorem c8_rerun_overwrites_idempotent (env : Env) (opts : List Opt)
    (fs : List (String × String)) :
    runFS env opts (runFS env opts fs) = runFS env opts fs := by
  unfold runFS
  cases hf : (main_run env opts).file with
  | none => simp [applyFile]
  | some pc =>
    obtain ⟨p, c⟩ := pc
    simp [applyFile, setFS_idem]

/-- Counterexample to C9: with -f bad (unresolvable) before -h, the
process returns 1 from the -f case and the help text is never printed,
although -h is present among the arguments. -/
theorem c9_cex_earlier_bad_f_preempts_help :
    (main_run envNoPath [Opt.f "bad", Opt.h]).exitCode = 1 ∧
    HELP ∉ (main_run envNoPath [Opt.f "bad", Opt.h]).stdout := by
  decide

/-- C9 amended: -h or -v prints the help or version text and returns 0
from inside the option loop, with no file created, provided every
earlier option was a -d or a -f whose directory resolves; an earlier
failing -f (or unknown-option case) ends the run before the flag is
reached. -/
theorem c9_amended_help_version_when_reached (env : Env) (pre rest : List Opt)
    (hpre : ∀ o ∈ pre, benignOpt env o) :
    ((main_run env (pre ++ Opt.h :: rest)).exitCode = 0 ∧
     (main_run env (pre ++ Opt.h :: rest)).file = none ∧
     [HELP] <:+ (main_run env (pre ++ Opt.h :: rest)).stdout) ∧
    ((main_run env (pre ++ Opt.v :: rest)).exitCode = 0 ∧
     (main_run env (pre ++ Opt.v :: rest)).file = none ∧
     versionLines <:+ (main_run env (pre ++ Opt.v :: rest)).stdout) := by
  obtain ⟨st2, out2, he⟩ :=
    optLoop_benign_append env pre hpre (Opt.h :: rest) initState []
  obtain ⟨st3, out3, hv⟩ :=
    optLoop_benign_append env pre hpre (Opt.v :: rest) initState []
  constructor
  · have hrun : main_run env (pre ++ Opt.h :: rest) =
        ⟨0, out2 ++ [HELP], none⟩ := by
      simp only [main_run, he, optLoop, List.nil_append]
    rw [hrun]
    exact ⟨rfl, rfl, List.suffix_append out2 [HELP]⟩
  · have hrun : main_run env (pre ++ Opt.v :: rest) =
        ⟨0, out3 ++ versionLines, none⟩ := by
      simp only [main_run, hv, optLoop, List.nil_append]
    rw [hrun]
    exact ⟨rfl, rfl, List.suffix_append out3 versionLines⟩

/-- Witness for the amended C9: a resolvable -f and a -d before -h still
end in the help text, exit code 0 and no file. -/
theorem c9_amended_witness :
    (main_run envOK [Opt.f "dir", Opt.d "07042025", Opt.h]).exitCode = 0 ∧
    (main_run envOK [Opt.f "dir", Opt.d "07042025", Opt.h]).file = none ∧
    [HELP] <:+ (main_run envOK [Opt.f "dir", Opt.d "07042025", Opt.h]).stdout := by
  have hb : ∀ o ∈ [Opt.f "dir", Opt.d "07042025"], benignOpt envOK o := by
    intro o ho
    rcases List.mem_cons.mp ho with rfl | ho2
    · exact ⟨"dir", rfl⟩
    rcases List.mem_cons.mp ho2 with rfl | ho3
    · exact True.intro
    · cases ho3
  exact (c9_amended_help_version_when_reached envOK
    [Opt.f "dir", Opt.d "07042025"] [] hb).1

/-- C10: every successful write prints exactly the fixed confirmation
line naming the resolved path — the text always says the file is for the
current date, even when the run used a custom -d date. -/
theorem c10_fixed_message_even_for_custom_date (env : Env) (raw : String)
    (path : Option String) (k : Nat) (hm : matchPos raw.data = some k)
    (ho : env.openOk (targetPath (sliceStr raw 0 2) (sliceStr raw 2 2)
      (sliceStr raw 4 4) path) = true)
    (hw : env.writeOk (targetPath (sliceStr raw 0 2) (sliceStr raw 2 2)
      (sliceStr raw 4 4) path) = true) :
    (handle_custom env raw path).stdout =
      ["Wrote new logfile for today\x27s date to " ++
        targetPath (sliceStr raw 0 2) (sliceStr raw 2 2) (sliceStr raw 4 4)
          path] := by
  rw [handle_custom_eq_write env raw path k hm,
    write_logfile_eq_success env _ _ _ path ho hw]

/-- Witness for C10: a custom-date run into /logs prints the fixed line
with the resolved path. -/
theorem c10_witness :
    (handle_custom envOK "07042025" (some "/logs")).stdout =
      ["Wrote new logfile for today\x27s date to /logs/07.04.2025.log"] := by
  have h := c10_fixed_message_even_for_custom_date envOK "07042025"
    (some "/logs") 0 (by decide) rfl rfl
  rw [h]
  decide

end Touchlog
